import Mathlib

/-
Verification development for the ECE4180-Camera repository.

Shallow embedding of the frame pipeline and bus-transfer protocol:
  - LCD_ClearWindow's DMA-chunked solid fill (src/stitch_cam_v5/LCD_Driver.cpp),
  - the bulk SPI session protocol (src/stitch_cam_v5/DEV_Config.cpp),
  - LCDManager::displayFrame's chunked frame streaming (src/stitch_cam_v4/lcd_manager.h),
  - CameraManager's capture and decode paths (src/stitch_cam_v2/camera_manager.h),
  - UIManager's interrupt-set request flags (src/stitch_cam_v4/ui_manager.h).

Machine integers are modelled as Nat with explicit truncation where the
source narrows a value; byte streams are lists of Nat byte values.
-/

/-! ## Display driver constants (src/stitch_cam_v5/LCD_Driver.h) -/

/-- Display width in pixels, `#define LCD_WIDTH 240`. -/
def LCD_WIDTH : Nat := 240

/-- Display height in pixels, `#define LCD_HEIGHT 320`. -/
def LCD_HEIGHT : Nat := 320

/-- Chunk buffer size, `#define DMA_BUFFER_SIZE 16384` (src/stitch_cam_v5/DEV_Config.h). -/
def DMA_BUFFER_SIZE : Nat := 16384

/-! ## LCD_ClearWindow pixel-data emission (src/stitch_cam_v5/LCD_Driver.cpp)

`LCD_ClearWindow` computes `colorHigh = color >> 8` and `colorLow = color & 0xFF`,
fills the DMA chunk buffer with the repeated big-endian pair, and streams it in
chunks of at most `DMA_BUFFER_SIZE` bytes until `width * height * 2` bytes have
been written.  The chunk-buffer size is kept as a parameter `bufSize` so the
claim's quantification over chunk-buffer sizes can be stated. -/

/-- High byte of a 16-bit color: `UBYTE colorHigh = color >> 8;` (the source value
is a `UWORD`, so the result of the shift already fits a byte; `% 256` makes the
`UBYTE` truncation explicit for arbitrary Nat input). -/
def colorHigh (color : Nat) : Nat := color / 256 % 256

/-- Low byte of a 16-bit color: `UBYTE colorLow = color & 0xFF;`. -/
def colorLow (color : Nat) : Nat := color % 256

/-- `pixelPattern hi lo n` is `n` repetitions of the byte pair `[hi, lo]`:
the serialized form of `n` pixels of one big-endian 16-bit color. -/
def pixelPattern (hi lo : Nat) : Nat → List Nat
  | 0 => []
  | n + 1 => hi :: lo :: pixelPattern hi lo n

/-- Contents of the DMA chunk buffer after the fill loop
`for (uint16_t i = 0; i < DMA_BUFFER_SIZE; i += 2) { buf[i] = hi; buf[i+1] = lo; }`:
the loop executes `(bufSize + 1) / 2` iterations, each writing one `[hi, lo]`
pair.  For even `bufSize` this is exactly the buffer; for odd `bufSize` the last
iteration also writes one byte past the buffer (the model keeps that byte, and
chunk reads below never reach past index `bufSize - 1`). -/
def dmaFillBuffer (bufSize hi lo : Nat) : List Nat :=
  pixelPattern hi lo ((bufSize + 1) / 2)

/-- The chunked emission loop of `LCD_ClearWindow`:
`while (remaining > 0) { chunkSize = (remaining > bufSize) ? bufSize : remaining;
DEV_SPI_Write_DMA(buf, chunkSize); remaining -= chunkSize; }`.
Each `DEV_SPI_Write_DMA` puts the first `chunkSize` bytes of the chunk buffer on
the bus; the emitted stream is their concatenation.  `fuel` bounds the number of
iterations: each iteration consumes at least one byte whenever `bufSize > 0`, so
`fuel = remaining` is always enough; for `bufSize = 0` the source loop never
terminates and the model returns early. -/
def dmaChunkLoop (buf : List Nat) (bufSize : Nat) : Nat → Nat → List Nat
  | 0, _ => []
  | _ + 1, 0 => []
  | fuel + 1, remaining + 1 =>
    let chunkSize := if remaining + 1 > bufSize then bufSize else remaining + 1
    buf.take chunkSize ++ dmaChunkLoop buf bufSize fuel (remaining + 1 - chunkSize)

/-- Pixel-data byte stream emitted on the bus by
`LCD_ClearWindow(Xstart, Ystart, Xend, Yend, color)` (the `USE_DMA_TRANSFER`
branch, which is the compiled one), with the chunk-buffer size a parameter.
The source computes `width = Xend - Xstart`, `height = Yend - Ystart`,
`totalBytes = width * height * 2` and addresses the inclusive device window
`(Xstart, Ystart) .. (Xend - 1, Yend - 1)` via `LCD_SetCursor`, whose pixel
dimensions are exactly `width` by `height`.  The `LCD_SetCursor` command bytes
are control writes and not part of the pixel-data stream. -/
def LCD_ClearWindow_pixelStream (Xstart Ystart Xend Yend color bufSize : Nat) : List Nat :=
  let width := Xend - Xstart
  let height := Yend - Ystart
  let totalBytes := width * height * 2
  dmaChunkLoop (dmaFillBuffer bufSize (colorHigh color) (colorLow color)) bufSize
    totalBytes totalBytes

/-! ### Helper lemmas about the replicated color pattern -/

theorem pixelPattern_length (hi lo n : Nat) : (pixelPattern hi lo n).length = 2 * n := by
  induction n with
  | zero => rfl
  | succ n ih => simp [pixelPattern, ih]; omega

theorem pixelPattern_append (hi lo a b : Nat) :
    pixelPattern hi lo (a + b) = pixelPattern hi lo a ++ pixelPattern hi lo b := by
  induction a with
  | zero => simp [pixelPattern]
  | succ a ih =>
    have h : a + 1 + b = (a + b) + 1 := by omega
    rw [h]
    simp [pixelPattern, ih]

theorem pixelPattern_take (hi lo : Nat) :
    ∀ j n, j ≤ n → (pixelPattern hi lo n).take (2 * j) = pixelPattern hi lo j := by
  intro j
  induction j with
  | zero => intro n _; simp [pixelPattern]
  | succ j ih =>
    intro n hn
    cases n with
    | zero => omega
    | succ n =>
      have h : 2 * (j + 1) = 2 * j + 1 + 1 := by omega
      rw [h]
      simp only [pixelPattern, List.take_succ_cons]
      rw [ih n (by omega)]

theorem dmaChunkLoop_zero (buf : List Nat) (bufSize fuel : Nat) :
    dmaChunkLoop buf bufSize fuel 0 = [] := by
  cases fuel <;> rfl

/-- Core invariant of the chunked emission: with an even chunk-buffer size
`2 * b` filled with at least `b` whole color pairs, emitting `2 * k` bytes
yields exactly `k` serialized pixels of the color, for any sufficient fuel. -/
theorem dmaChunkLoop_even (hi lo b p : Nat) (hb : 0 < b) (hbp : b ≤ p) :
    ∀ fuel k, 2 * k ≤ fuel →
      dmaChunkLoop (pixelPattern hi lo p) (2 * b) fuel (2 * k) = pixelPattern hi lo k := by
  intro fuel
  induction fuel with
  | zero =>
    intro k hk
    have hk0 : k = 0 := by omega
    subst hk0
    rfl
  | succ fuel ih =>
    intro k hk
    cases k with
    | zero => rfl
    | succ j =>
      have h : 2 * (j + 1) = 2 * j + 1 + 1 := by omega
      rw [h]
      simp only [dmaChunkLoop]
      by_cases hc : 2 * j + 1 + 1 > 2 * b
      · simp only [if_pos hc]
        rw [pixelPattern_take hi lo b p hbp]
        have hrem : 2 * j + 1 + 1 - 2 * b = 2 * (j + 1 - b) := by omega
        rw [hrem, ih (j + 1 - b) (by omega)]
        rw [← pixelPattern_append]
        have : b + (j + 1 - b) = j + 1 := by omega
        rw [this]
      · simp only [if_neg hc]
        have h2 : 2 * j + 1 + 1 = 2 * (j + 1) := by omega
        rw [h2, pixelPattern_take hi lo (j + 1) p (by omega)]
        rw [Nat.sub_self, dmaChunkLoop_zero]
        simp

/-- C1 (amended): for every window with `Xstart ≤ Xend < LCD_WIDTH` and
`Ystart ≤ Yend < LCD_HEIGHT` and every color, `LCD_ClearWindow` emits exactly
`W * H * 2` bytes of pixel data, where `W = Xend - Xstart` and
`H = Yend - Ystart` are the pixel dimensions of the addressed device window,
and every consecutive pair of emitted bytes is the 16-bit color serialized high
byte first — for every even, positive chunk-buffer size, including even sizes
that do not evenly divide `W * H * 2` (the last chunk is truncated to the exact
remaining byte count).  Odd chunk-buffer sizes break the pair alignment across
chunk boundaries (see the counterexample) and make the source's fill loop
overrun the buffer, and size 0 makes the source loop diverge. -/
theorem LCD_ClearWindow_fill_exact (Xstart Ystart Xend Yend color bufSize : Nat)
    (hx : Xstart ≤ Xend) (hxw : Xend < LCD_WIDTH)
    (hy : Ystart ≤ Yend) (hyh : Yend < LCD_HEIGHT)
    (hB0 : 0 < bufSize) (hB2 : 2 ∣ bufSize) :
    (LCD_ClearWindow_pixelStream Xstart Ystart Xend Yend color bufSize).length
        = (Xend - Xstart) * (Yend - Ystart) * 2 ∧
    LCD_ClearWindow_pixelStream Xstart Ystart Xend Yend color bufSize
        = pixelPattern (colorHigh color) (colorLow color)
            ((Xend - Xstart) * (Yend - Ystart)) := by
  obtain ⟨b, rfl⟩ := hB2
  have hb : 0 < b := by omega
  have hfill : (2 * b + 1) / 2 = b := by omega
  have hkey : LCD_ClearWindow_pixelStream Xstart Ystart Xend Yend color (2 * b)
      = pixelPattern (colorHigh color) (colorLow color)
          ((Xend - Xstart) * (Yend - Ystart)) := by
    unfold LCD_ClearWindow_pixelStream dmaFillBuffer
    rw [hfill]
    show dmaChunkLoop (pixelPattern (colorHigh color) (colorLow color) b) (2 * b)
        ((Xend - Xstart) * (Yend - Ystart) * 2) ((Xend - Xstart) * (Yend - Ystart) * 2)
        = pixelPattern (colorHigh color) (colorLow color) ((Xend - Xstart) * (Yend - Ystart))
    have h2 : (Xend - Xstart) * (Yend - Ystart) * 2
        = 2 * ((Xend - Xstart) * (Yend - Ystart)) := by ring
    rw [h2]
    exact dmaChunkLoop_even (colorHigh color) (colorLow color) b b hb (le_refl b)
      (2 * ((Xend - Xstart) * (Yend - Ystart))) ((Xend - Xstart) * (Yend - Ystart))
      (le_refl _)
  refine ⟨?_, hkey⟩
  rw [hkey, pixelPattern_length]
  ring

/-- Witness for C1: a 2×1 window filled with color 0x1234 using chunk-buffer
size 2 (which does not divide the 4-byte total evenly at larger windows; here it
exercises the theorem at a concrete input). -/
theorem LCD_ClearWindow_fill_exact_witness :
    (LCD_ClearWindow_pixelStream 0 0 2 1 4660 2).length = (2 - 0) * (1 - 0) * 2 ∧
    LCD_ClearWindow_pixelStream 0 0 2 1 4660 2
        = pixelPattern (colorHigh 4660) (colorLow 4660) ((2 - 0) * (1 - 0)) :=
  LCD_ClearWindow_fill_exact 0 0 2 1 4660 2 (by decide) (by decide) (by decide)
    (by decide) (by decide) (by decide)

/-- Counterexample for C1 as stated: with the odd chunk-buffer size 3, a 1×2
window filled with color 0x1234 emits `[18, 52, 18, 18]` — the second emitted
pair is `(18, 18)`, not the color `(18, 52)` — so the claim's quantification
over every chunk-buffer size fails. -/
theorem LCD_ClearWindow_oddChunk_cex :
    LCD_ClearWindow_pixelStream 0 0 1 2 4660 3 = [18, 52, 18, 18] ∧
    LCD_ClearWindow_pixelStream 0 0 1 2 4660 3
        ≠ pixelPattern (colorHigh 4660) (colorLow 4660) ((1 - 0) * (2 - 0)) := by
  decide

/-! ## Bulk SPI session protocol (src/stitch_cam_v5/DEV_Config.cpp)

`bulk_active` is a file-static flag initialized to `false`.  The three session
functions are modelled as state transformers that also return the list of bus
operations they perform. -/

/-- One observable operation on the LCD SPI bus. -/
inductive BusOp where
  | csLow
  | csHigh
  | dcHigh
  | beginTransaction
  | endTransaction
  | writeBytes (data : List Nat)
deriving DecidableEq

/-- Bus-transport state: the `static bool bulk_active` session flag. -/
structure BusState where
  bulk_active : Bool
deriving DecidableEq

/-- Initial bus state: `static bool bulk_active = false;`. -/
def initialBusState : BusState := { bulk_active := false }

/-- `DEV_SPI_Write_Bulk_Start`: asserts chip select, sets data mode, opens the
SPI transaction and marks the session active. -/
def DEV_SPI_Write_Bulk_Start (s : BusState) : BusState × List BusOp :=
  ({ s with bulk_active := true },
   [BusOp.csLow, BusOp.dcHigh, BusOp.beginTransaction])

/-- `DEV_SPI_Write_Bulk_Data(data, len)`:
`if (len == 0 || !bulk_active) return;` then `SPIlcd.writeBytes(data, len)`.
The `len`-byte source region is modelled as the list `data`. -/
def DEV_SPI_Write_Bulk_Data (data : List Nat) (s : BusState) : BusState × List BusOp :=
  if data.length = 0 ∨ s.bulk_active = false then (s, [])
  else (s, [BusOp.writeBytes data])

/-- `DEV_SPI_Write_Bulk_End`: `if (bulk_active) { endTransaction; CS high;
bulk_active = false; }`. -/
def DEV_SPI_Write_Bulk_End (s : BusState) : BusState × List BusOp :=
  if s.bulk_active then
    ({ s with bulk_active := false }, [BusOp.endTransaction, BusOp.csHigh])
  else (s, [])

/-- Bus de-assertion events (chip-select raised) in a trace. -/
def isDeassert : BusOp → Bool
  | BusOp.csHigh => true
  | _ => false

/-- Number of bus de-assertions in a trace. -/
def deassertCount (trace : List BusOp) : Nat := (trace.filter isDeassert).length

/-- C4: calling `DEV_SPI_Write_Bulk_Data` while no session is active — the
initial state has no session, and the state after any `DEV_SPI_Write_Bulk_End`
has no session — transfers zero bytes, performs no bus operation, leaves the
state unchanged, and raises no error (the model has no failure outcome, just as
the source returns `void`). -/
theorem Bulk_Data_no_session_noop (data : List Nat) (s : BusState) :
    initialBusState.bulk_active = false ∧
    ((DEV_SPI_Write_Bulk_End s).fst).bulk_active = false ∧
    (s.bulk_active = false → DEV_SPI_Write_Bulk_Data data s = (s, [])) := by
  refine ⟨rfl, ?_, ?_⟩
  · unfold DEV_SPI_Write_Bulk_End
    by_cases h : s.bulk_active <;> simp [h]
  · intro h
    unfold DEV_SPI_Write_Bulk_Data
    simp [h]

/-- Witness for C4: a nonempty buffer written with no session active is a
complete no-op. -/
theorem Bulk_Data_no_session_noop_witness :
    initialBusState.bulk_active = false ∧
    ((DEV_SPI_Write_Bulk_End initialBusState).fst).bulk_active = false ∧
    DEV_SPI_Write_Bulk_Data [7, 8, 9] initialBusState = (initialBusState, []) :=
  ⟨(Bulk_Data_no_session_noop [7, 8, 9] initialBusState).1,
   (Bulk_Data_no_session_noop [7, 8, 9] initialBusState).2.1,
   (Bulk_Data_no_session_noop [7, 8, 9] initialBusState).2.2 rfl⟩

/-- C7 (amended): `DEV_SPI_Write_Bulk_End` is idempotent: from any state, the
second of two consecutive calls performs no bus operation and does not change
the state; the session is inactive afterwards; and across the two calls the bus
is de-asserted at most once — exactly once when a session was active, zero
times when no session was active (in which case the first call is already a
no-op). -/
theorem Bulk_End_idempotent (s : BusState) :
    DEV_SPI_Write_Bulk_End ((DEV_SPI_Write_Bulk_End s).fst)
        = ((DEV_SPI_Write_Bulk_End s).fst, []) ∧
    ((DEV_SPI_Write_Bulk_End s).fst).bulk_active = false ∧
    (DEV_SPI_Write_Bulk_End s).snd
        ++ (DEV_SPI_Write_Bulk_End ((DEV_SPI_Write_Bulk_End s).fst)).snd
        = (if s.bulk_active then [BusOp.endTransaction, BusOp.csHigh] else []) ∧
    deassertCount ((DEV_SPI_Write_Bulk_End s).snd
        ++ (DEV_SPI_Write_Bulk_End ((DEV_SPI_Write_Bulk_End s).fst)).snd)
        = (if s.bulk_active then 1 else 0) := by
  obtain ⟨b⟩ := s
  cases b <;> simp [DEV_SPI_Write_Bulk_End, deassertCount, isDeassert]

/-- Counterexample for C7 as stated: from the (inactive) initial state, two
consecutive `DEV_SPI_Write_Bulk_End` calls perform zero bus operations, so the
pair does not de-assert the bus exactly once — "calling it twice in a row from
any state ... de-asserts the bus exactly once" fails for states with no active
session. -/
theorem Bulk_End_idempotent_cex :
    (DEV_SPI_Write_Bulk_End initialBusState).snd
        ++ (DEV_SPI_Write_Bulk_End ((DEV_SPI_Write_Bulk_End initialBusState).fst)).snd
        = ([] : List BusOp) ∧
    deassertCount ((DEV_SPI_Write_Bulk_End initialBusState).snd
        ++ (DEV_SPI_Write_Bulk_End ((DEV_SPI_Write_Bulk_End initialBusState).fst)).snd)
        ≠ 1 := by
  decide

/-! ## LCDManager::displayFrame (src/stitch_cam_v4/lcd_manager.h)

`displayFrame` sets the full-frame address window, opens a bulk session,
streams the 320x240 RGB565 frame buffer in `DMA_BUFFER_SIZE`-byte chunks via
`DEV_SPI_Write_Bulk_Data`, and ends the session. -/

/-- Camera frame width, `CameraConfig::FRAME_WIDTH = 320`. -/
def FRAME_WIDTH : Nat := 320

/-- Camera frame height, `CameraConfig::FRAME_HEIGHT = 240`. -/
def FRAME_HEIGHT : Nat := 240

/-- The chunking loop of `displayFrame`:
`for (offset = 0; offset < totalBytes; offset += chunkSize) {
  size = min(chunkSize, totalBytes - offset);
  DEV_SPI_Write_Bulk_Data(frameBuffer + offset, size); }`.
The `size`-byte region at `frameBuffer + offset` is the slice
`(frame.drop offset).take size`.  `fuel` bounds the iteration count; each
iteration advances `offset` by `chunk ≥ 1`, so `fuel = totalBytes` is always
enough. -/
def displayFrameLoop (frame : List Nat) (total chunk : Nat) :
    Nat → Nat → BusState → BusState × List BusOp
  | 0, _, s => (s, [])
  | fuel + 1, offset, s =>
    if offset < total then
      let size := min chunk (total - offset)
      let r := DEV_SPI_Write_Bulk_Data ((frame.drop offset).take size) s
      let rest := displayFrameLoop frame total chunk fuel (offset + chunk) r.fst
      (rest.fst, r.snd ++ rest.snd)
    else (s, [])

/-- `LCDManager::displayFrame(frameBuffer)`: bulk-session start, chunked
transfer of `FRAME_WIDTH * FRAME_HEIGHT * 2` bytes, bulk-session end.  The
preceding `LCD_SetCursor` command writes are control traffic and not modelled
as part of this trace. -/
def displayFrame (frame : List Nat) (s : BusState) : BusState × List BusOp :=
  let r1 := DEV_SPI_Write_Bulk_Start s
  let total := FRAME_WIDTH * FRAME_HEIGHT * 2
  let r2 := displayFrameLoop frame total DMA_BUFFER_SIZE total 0 r1.fst
  let r3 := DEV_SPI_Write_Bulk_End r2.fst
  (r3.fst, r1.snd ++ r2.snd ++ r3.snd)

/-- The data payloads (chunk contents) of a bus trace, in order. -/
def dataPayloads (trace : List BusOp) : List (List Nat) :=
  trace.filterMap (fun op => match op with
    | BusOp.writeBytes d => some d
    | _ => none)

/-- The chunk slices the `displayFrame` loop sends, as lists of bytes. -/
def frameChunks (frame : List Nat) (total chunk : Nat) : Nat → Nat → List (List Nat)
  | 0, _ => []
  | fuel + 1, offset =>
    if offset < total then
      ((frame.drop offset).take (min chunk (total - offset)))
        :: frameChunks frame total chunk fuel (offset + chunk)
    else []

/-- The chunk sizes the `displayFrame` loop sends. -/
def chunkSizes (total chunk : Nat) : Nat → Nat → List Nat
  | 0, _ => []
  | fuel + 1, offset =>
    if offset < total then
      min chunk (total - offset) :: chunkSizes total chunk fuel (offset + chunk)
    else []

theorem dataPayloads_append (a b : List BusOp) :
    dataPayloads (a ++ b) = dataPayloads a ++ dataPayloads b := by
  simp [dataPayloads, List.filterMap_append]

theorem dataPayloads_map_writeBytes (l : List (List Nat)) :
    dataPayloads (l.map BusOp.writeBytes) = l := by
  induction l with
  | nil => rfl
  | cons a l ih => simp only [List.map_cons, dataPayloads, List.filterMap_cons] at *; simp [ih]

/-- With an active session and a frame at least `total` bytes long, the
`displayFrame` loop leaves the bus state unchanged and its trace is exactly one
`writeBytes` per chunk slice. -/
theorem displayFrameLoop_spec (frame : List Nat) (total chunk : Nat)
    (hc : 0 < chunk) (htl : total ≤ frame.length) :
    ∀ fuel offset (s : BusState), s.bulk_active = true →
      displayFrameLoop frame total chunk fuel offset s
        = (s, (frameChunks frame total chunk fuel offset).map BusOp.writeBytes) := by
  intro fuel
  induction fuel with
  | zero => intro offset s _; rfl
  | succ fuel ih =>
    intro offset s hs
    simp only [displayFrameLoop, frameChunks]
    by_cases ho : offset < total
    · simp only [if_pos ho]
      have hslice : ((frame.drop offset).take (min chunk (total - offset))).length ≠ 0 := by
        rw [List.length_take, List.length_drop]
        omega
      have hdata : DEV_SPI_Write_Bulk_Data
          ((frame.drop offset).take (min chunk (total - offset))) s
          = (s, [BusOp.writeBytes ((frame.drop offset).take (min chunk (total - offset)))]) := by
        unfold DEV_SPI_Write_Bulk_Data
        rw [if_neg]
        push_neg
        exact ⟨hslice, by rw [hs]; decide⟩
      rw [hdata]
      rw [ih (offset + chunk) s hs]
      simp
    · simp [if_neg ho]

theorem frameChunks_length (frame : List Nat) (total chunk : Nat)
    (htl : total ≤ frame.length) :
    ∀ fuel offset, (frameChunks frame total chunk fuel offset).map List.length
      = chunkSizes total chunk fuel offset := by
  intro fuel
  induction fuel with
  | zero => intro offset; rfl
  | succ fuel ih =>
    intro offset
    simp only [frameChunks, chunkSizes]
    by_cases ho : offset < total
    · simp only [if_pos ho, List.map_cons, ih]
      congr 1
      rw [List.length_take, List.length_drop]
      omega
    · simp [if_neg ho]

theorem frameChunks_flatten (frame : List Nat) (total chunk : Nat) (hc : 0 < chunk) :
    ∀ fuel offset, total - offset ≤ fuel →
      (frameChunks frame total chunk fuel offset).flatten
        = (frame.drop offset).take (total - offset) := by
  intro fuel
  induction fuel with
  | zero =>
    intro offset hf
    have h0 : total - offset = 0 := by omega
    simp [frameChunks, h0]
  | succ fuel ih =>
    intro offset hf
    simp only [frameChunks]
    by_cases ho : offset < total
    · simp only [if_pos ho, List.flatten_cons]
      rw [ih (offset + chunk) (by omega)]
      by_cases hcc : chunk ≤ total - offset
      · have hmin : min chunk (total - offset) = chunk := by omega
        rw [hmin]
        have hsplit : total - offset = chunk + (total - (offset + chunk)) := by omega
        rw [hsplit, List.take_add, List.drop_drop]
      · have hmin : min chunk (total - offset) = total - offset := by omega
        have hoff2 : total - (offset + chunk) = 0 := by omega
        rw [hmin, hoff2]
        simp
    · have h0 : total - offset = 0 := by omega
      simp [if_neg ho, h0]

/-- The chunk-size list does not depend on the fuel bound, as long as the fuel
covers the loop's iteration count (`total ≤ offset + fuel * chunk`). -/
theorem chunkSizes_fuel_irrel (total chunk : Nat) :
    ∀ f1 f2 offset, total ≤ offset + f1 * chunk → total ≤ offset + f2 * chunk →
      chunkSizes total chunk f1 offset = chunkSizes total chunk f2 offset := by
  intro f1
  induction f1 with
  | zero =>
    intro f2 offset h1 h2
    have ho : ¬ offset < total := by omega
    cases f2 with
    | zero => rfl
    | succ f2 => simp [chunkSizes, ho]
  | succ f1 ih =>
    intro f2 offset h1 h2
    rw [Nat.succ_mul] at h1
    by_cases ho : offset < total
    · cases f2 with
      | zero => omega
      | succ f2 =>
        rw [Nat.succ_mul] at h2
        simp only [chunkSizes, if_pos ho]
        congr 1
        exact ih f2 (offset + chunk) (by omega) (by omega)
    · cases f2 with
      | zero => simp [chunkSizes, ho]
      | succ f2 => simp [chunkSizes, ho]

/-- Payload decomposition of a full `displayFrame` call: the data chunks put on
the bus are exactly the loop's frame slices (start/end session traffic carries
no data payload). -/
theorem displayFrame_payloads (frame : List Nat) (s : BusState)
    (h : 153600 ≤ frame.length) :
    dataPayloads (displayFrame frame s).snd = frameChunks frame 153600 16384 153600 0 := by
  have hs1 : (DEV_SPI_Write_Bulk_Start s).fst = { s with bulk_active := true } := rfl
  have hloop := displayFrameLoop_spec frame 153600 16384 (by decide) h
    153600 0 ({ s with bulk_active := true }) rfl
  show dataPayloads ((DEV_SPI_Write_Bulk_Start s).snd
        ++ (displayFrameLoop frame 153600 16384 153600 0 (DEV_SPI_Write_Bulk_Start s).fst).snd
        ++ (DEV_SPI_Write_Bulk_End (displayFrameLoop frame 153600 16384 153600 0
              (DEV_SPI_Write_Bulk_Start s).fst).fst).snd)
      = frameChunks frame 153600 16384 153600 0
  rw [hs1, hloop]
  rw [dataPayloads_append, dataPayloads_append]
  show dataPayloads [BusOp.csLow, BusOp.dcHigh, BusOp.beginTransaction]
      ++ dataPayloads ((frameChunks frame 153600 16384 153600 0).map BusOp.writeBytes)
      ++ dataPayloads (DEV_SPI_Write_Bulk_End { s with bulk_active := true }).snd
      = frameChunks frame 153600 16384 153600 0
  rw [dataPayloads_map_writeBytes]
  show [] ++ frameChunks frame 153600 16384 153600 0
      ++ dataPayloads [BusOp.endTransaction, BusOp.csHigh]
      = frameChunks frame 153600 16384 153600 0
  simp [dataPayloads]

/-- C2 (amended): streaming one full 320x240 16-bit frame buffer to the display
via `LCDManager::displayFrame` transfers exactly `320 * 240 * 2 = 153600`
bytes — the concatenation of the transferred chunks is the frame itself —
split into chunks of the configured transfer-buffer size 16384, with the final
chunk sized `153600 mod 16384 = 6144` bytes (nine full 16384-byte chunks plus
one 6144-byte chunk; the claim's value 9216 is arithmetically wrong). -/
theorem displayFrame_chunk_structure (frame : List Nat) (s : BusState)
    (h : frame.length = 153600) :
    (dataPayloads (displayFrame frame s).snd).map List.length
        = List.replicate 9 16384 ++ [6144] ∧
    ((dataPayloads (displayFrame frame s).snd).map List.length).sum = 153600 ∧
    (dataPayloads (displayFrame frame s).snd).flatten = frame := by
  have hlen : 153600 ≤ frame.length := by omega
  have hpay := displayFrame_payloads frame s hlen
  have ha : (dataPayloads (displayFrame frame s).snd).map List.length
      = List.replicate 9 16384 ++ [6144] := by
    rw [hpay, frameChunks_length frame 153600 16384 hlen 153600 0]
    rw [chunkSizes_fuel_irrel 153600 16384 153600 10 0 (by norm_num) (by norm_num)]
    decide
  refine ⟨ha, by rw [ha]; decide, ?_⟩
  rw [hpay, frameChunks_flatten frame 153600 16384 (by decide) 153600 0 (by omega)]
  simp only [List.drop_zero, Nat.sub_zero]
  rw [← h]
  exact List.take_length frame

/-- Witness for C2: the all-zero 153600-byte frame. -/
theorem displayFrame_chunk_structure_witness :
    (dataPayloads (displayFrame (List.replicate 153600 0) initialBusState).snd).map
        List.length = List.replicate 9 16384 ++ [6144] ∧
    ((dataPayloads (displayFrame (List.replicate 153600 0) initialBusState).snd).map
        List.length).sum = 153600 ∧
    (dataPayloads (displayFrame (List.replicate 153600 0) initialBusState).snd).flatten
        = List.replicate 153600 0 :=
  displayFrame_chunk_structure (List.replicate 153600 0) initialBusState
    (by rw [List.length_replicate])

/-- Counterexample for C2 as stated: the final chunk of a 153600-byte frame
transfer is 6144 bytes, not `153600 mod 16384 = 9216` as the claim asserts
(the claim's modulus value is wrong: `153600 % 16384 = 6144`). -/
theorem displayFrame_lastChunk_cex :
    ((dataPayloads (displayFrame (List.replicate 153600 0) initialBusState).snd).map
        List.length).getLast? = some 6144 ∧
    153600 % 16384 = 6144 ∧
    ¬ (((dataPayloads (displayFrame (List.replicate 153600 0) initialBusState).snd).map
        List.length).getLast? = some 9216) := by
  have hp := displayFrame_payloads (List.replicate 153600 0) initialBusState
    (by rw [List.length_replicate])
  rw [hp, frameChunks_length _ 153600 16384 (by rw [List.length_replicate]) 153600 0]
  rw [chunkSizes_fuel_irrel 153600 16384 153600 10 0 (by norm_num) (by norm_num)]
  refine ⟨by decide, by decide, by decide⟩

/-! ## CameraManager decode path (src/stitch_cam_v2/camera_manager.h)

`decodeToFrameBuffer` returns `false` early if `jpegLength == 0`, otherwise
clears the frame buffer with `memset(frameBuffer, 0, FRAME_BUFFER_SIZE)`, runs
the external TJpg_Decoder over the JPEG buffer — which invokes `tjpgCallback`
once per decoded pixel block, in decode order, before `drawJpg` returns its
result code — and returns `false` if the result is not `JDR_OK`.

The external decoder is modelled abstractly by the sequence of pixel blocks it
delivers to the callback together with its result code; the repository's own
code (the clear, the callback's buffer writes, and the result check) is
modelled exactly. -/

/-- Frame buffer size in bytes, `CameraConfig::FRAME_BUFFER_SIZE = 320 * 240 * 2`
(src/stitch_cam_v2/config.h). -/
def FRAME_BUFFER_SIZE : Nat := FRAME_WIDTH * FRAME_HEIGHT * 2

/-- `JDR_OK = 0`, the TJpg_Decoder success code. -/
def JDR_OK : Nat := 0

/-- One pixel block passed to `tjpgCallback(x, y, w, h, bitmap)`.  The source
declares `x`, `y` as `int16_t`; `TJpgDec.drawJpg` is called with origin (0, 0),
so block origins are non-negative and are modelled as Nat.  `bitmap` is the
block's RGB565 pixel array, indexed row-major; entries are `uint16_t`, made
explicit with `% 65536` where read. -/
structure DecodeBlock where
  x : Nat
  y : Nat
  w : Nat
  h : Nat
  bitmap : Nat → Nat

/-- A pixel buffer, as a byte-indexed function. -/
def writePixel (buf : Nat → Nat) (idx val : Nat) : Nat → Nat :=
  fun i => if i = idx then val else buf i

/-- `tjpgCallback`: for each row with `y + row < FRAME_HEIGHT` and each column
with `x + col < FRAME_WIDTH`, store the RGB565 pixel big-endian at byte offset
`((y + row) * FRAME_WIDTH + (x + col)) * 2`.  The source's `break` on an
out-of-range row (or column) skips the remaining rows (columns); since the
bound is monotone in the loop index, that is the same as skipping each
out-of-range index, which is how it is modelled. -/
def tjpgCallback (b : DecodeBlock) (buf : Nat → Nat) : Nat → Nat :=
  (List.range b.h).foldl (fun acc row =>
    if b.y + row < FRAME_HEIGHT then
      (List.range b.w).foldl (fun acc2 col =>
        if b.x + col < FRAME_WIDTH then
          let dstIdx := ((b.y + row) * FRAME_WIDTH + (b.x + col)) * 2
          let px := b.bitmap (row * b.w + col) % 65536
          writePixel (writePixel acc2 dstIdx (px / 256)) (dstIdx + 1) (px % 256)
        else acc2) acc
    else acc) buf

/-- One run of the external `TJpgDec.drawJpg` decoder: the pixel blocks it
delivered to the callback (in order) and the result code it returned. -/
structure JpegDecodeRun where
  blocks : List DecodeBlock
  result : Nat

/-- `CameraManager::decodeToFrameBuffer()`: early-out on `jpegLength == 0`
(buffer untouched), else clear the buffer to all-zero, apply the decoder's
callback invocations, and succeed exactly when the decoder returned `JDR_OK`.
Returns the success flag and the frame buffer afterwards. -/
def decodeToFrameBuffer (run : JpegDecodeRun) (jpegLength : Nat) (buf0 : Nat → Nat) :
    Bool × (Nat → Nat) :=
  if jpegLength = 0 then (false, buf0)
  else
    let buf := run.blocks.foldl (fun b blk => tjpgCallback blk b) (fun _ => 0)
    if run.result ≠ JDR_OK then (false, buf) else (true, buf)

/-- C3 (amended): `decodeToFrameBuffer` clears the pixel buffer to all-zero
before decoding; after a failed decode in which the decoder reported its error
before delivering any pixel block (and the compressed length was nonzero), the
pixel buffer equals its all-zero cleared state.  If the decoder delivered pixel
blocks before failing, those pixels remain in the buffer — the code does not
re-clear on failure (see the counterexample) — and a zero-length input fails
without touching the buffer at all. -/
theorem decode_failure_no_blocks_clears (run : JpegDecodeRun) (jpegLength : Nat)
    (buf0 : Nat → Nat) (hb : run.blocks = []) (hr : run.result ≠ JDR_OK)
    (hl : jpegLength ≠ 0) :
    (decodeToFrameBuffer run jpegLength buf0).fst = false ∧
    ∀ i, (decodeToFrameBuffer run jpegLength buf0).snd i = 0 := by
  unfold decodeToFrameBuffer
  rw [if_neg hl, hb]
  simp [List.foldl_nil, if_pos hr]

/-- Witness for C3: a failed decode (result code 1) of a 500-byte frame that
delivered no blocks leaves every inspected buffer byte zero. -/
theorem decode_failure_no_blocks_clears_witness :
    (decodeToFrameBuffer ⟨[], 1⟩ 500 (fun _ => 7)).fst = false ∧
    (decodeToFrameBuffer ⟨[], 1⟩ 500 (fun _ => 7)).snd 3 = 0 :=
  ⟨(decode_failure_no_blocks_clears ⟨[], 1⟩ 500 (fun _ => 7) rfl (by decide) (by decide)).1,
   (decode_failure_no_blocks_clears ⟨[], 1⟩ 500 (fun _ => 7) rfl (by decide) (by decide)).2 3⟩

/-- Counterexample for C3 as stated: a 500-byte compressed frame on which the
decoder delivers one 1x1 block of pixel 0xFFFF at (0, 0) and then fails
(result code 1): `decodeToFrameBuffer` returns failure, but byte 0 of the
pixel buffer holds 255, not 0 — the partially decoded pixel remains, so the
buffer does not equal its all-zero cleared state. -/
theorem decode_failure_partial_cex :
    (decodeToFrameBuffer ⟨[⟨0, 0, 1, 1, fun _ => 65535⟩], 1⟩ 500 (fun _ => 0)).fst = false ∧
    (decodeToFrameBuffer ⟨[⟨0, 0, 1, 1, fun _ => 65535⟩], 1⟩ 500 (fun _ => 0)).snd 0 = 255 ∧
    (255 : Nat) ≠ 0 := by
  refine ⟨rfl, ?_, by decide⟩
  show (tjpgCallback ⟨0, 0, 1, 1, fun _ => 65535⟩ (fun _ => 0)) 0 = 255
  rfl

/-! ## CameraManager capture path (src/stitch_cam_v2/camera_manager.h)

`captureJPEG` polls the sensor's capture-done bit with a 1 ms delay per
iteration and a 1000 ms timeout (`if (millis() - startTime > 1000) return
false;`), then reads the FIFO length, rejects 0 or values above
`MAX_JPEG_SIZE`, and finally burst-reads the payload into `jpegBuffer`.

Time is modelled as a millisecond counter: `millis()` reads it, and each
iteration's `delay(1)` advances it by exactly one; the sensor is an
environment giving the capture-done bit as a function of time, the FIFO
length register, and the FIFO byte stream. -/

/-- `CameraConfig::MAX_JPEG_SIZE = 32768` (src/stitch_cam_v2/config.h). -/
def MAX_JPEG_SIZE : Nat := 32768

/-- Sensor-side environment of one `captureJPEG` call: `capDone t` is the value
of `get_bit(ARDUCHIP_TRIG, CAP_DONE_MASK)` when read at millisecond `t`;
`fifoLength` is the value `read_fifo_length()` returns; `fifoByte i` is the
`i`-th byte produced by the burst read. -/
structure Sensor where
  capDone : Nat → Bool
  fifoLength : Nat
  fifoByte : Nat → Nat

/-- Camera-side state touched by `captureJPEG`: the availability flag set at
`init()`, the JPEG byte buffer, and the stored frame length `jpegLength`. -/
structure CamState where
  isAvailable : Bool
  jpegBuffer : List Nat
  jpegLength : Nat
deriving DecidableEq

/-- The wait loop
`while (!get_bit(...)) { if (millis() - startTime > 1000) return false; delay(1); }`,
started at time `startTime` with the current time `t`; returns whether the
done bit was observed, and the time at which the loop exited.  `fuel` bounds
the iteration count; the loop always exits once `t - startTime` reaches 1001,
so any fuel of at least `1002` is never exhausted when polling from
`t = startTime`. -/
def captureWait (capDone : Nat → Bool) (startTime : Nat) : Nat → Nat → Bool × Nat
  | 0, t => (false, t)
  | fuel + 1, t =>
    if capDone t then (true, t)
    else if t - startTime > 1000 then (false, t)
    else captureWait capDone startTime fuel (t + 1)

/-- `CameraManager::captureJPEG()` (from the wait loop onward; the preceding
`flush_fifo`/`clear_fifo_flag`/`start_capture` calls touch only the sensor).
On timeout the state is returned unchanged; on completion, `jpegLength` is
assigned the FIFO length before the validity check, and only a valid length
leads to the burst read that overwrites the first `jpegLength` bytes of
`jpegBuffer`. -/
def captureJPEG (env : Sensor) (startTime fuel : Nat) (s : CamState) : Bool × CamState :=
  if s.isAvailable = false then (false, s)
  else
    match captureWait env.capDone startTime fuel startTime with
    | (false, _) => (false, s)
    | (true, _) =>
      let len := env.fifoLength
      let s1 : CamState := { s with jpegLength := len }
      if len = 0 ∨ len > MAX_JPEG_SIZE then (false, s1)
      else (true, { s1 with jpegBuffer := (List.range len).map env.fifoByte
                      ++ s.jpegBuffer.drop len })

/-- When the done bit never reads true, polling from the start time fails at
exactly elapsed time 1001, for any sufficient fuel. -/
theorem captureWait_never (capDone : Nat → Bool) (h : ∀ t, capDone t = false)
    (startTime : Nat) :
    ∀ j fuel k, j + k = 1001 → j + 1 ≤ fuel →
      captureWait capDone startTime fuel (startTime + k) = (false, startTime + 1001) := by
  intro j
  induction j with
  | zero =>
    intro fuel k hk hf
    cases fuel with
    | zero => omega
    | succ fuel =>
      have hk1001 : k = 1001 := by omega
      subst hk1001
      simp only [captureWait, h]
      rw [if_neg (by simp), if_pos (by omega)]
  | succ j ih =>
    intro fuel k hk hf
    cases fuel with
    | zero => omega
    | succ fuel =>
      simp only [captureWait, h]
      rw [if_neg (by simp), if_neg (by omega)]
      have harg : startTime + k + 1 = startTime + (k + 1) := by omega
      rw [harg]
      exact ih fuel (k + 1) (by omega) (by omega)

/-- C5: if the capture-complete signal is never set, `captureJPEG` (fixed
1000 ms timeout, 1 ms poll interval) terminates and returns failure, with
elapsed polling time exactly 1001 ms — no less than the timeout and no more
than the timeout plus one poll interval. -/
theorem captureJPEG_timeout_bounds (env : Sensor) (startTime fuel : Nat) (s : CamState)
    (hnever : ∀ t, env.capDone t = false) (hfuel : 1002 ≤ fuel) :
    captureWait env.capDone startTime fuel startTime = (false, startTime + 1001) ∧
    captureJPEG env startTime fuel s = (false, s) ∧
    1000 ≤ (startTime + 1001) - startTime ∧
    (startTime + 1001) - startTime ≤ 1000 + 1 := by
  have hwait : captureWait env.capDone startTime fuel startTime
      = (false, startTime + 1001) := by
    have h0 := captureWait_never env.capDone hnever startTime 1001 fuel 0 (by omega)
      (by omega)
    rw [Nat.add_zero] at h0
    exact h0
  refine ⟨hwait, ?_, by omega, by omega⟩
  unfold captureJPEG
  by_cases hav : s.isAvailable = false
  · rw [if_pos hav]
  · rw [if_neg hav, hwait]

/-- Witness for C5: a sensor whose done bit is always false, polled with fuel
1002 from time 3. -/
theorem captureJPEG_timeout_bounds_witness :
    captureWait (fun _ => false) 3 1002 3 = (false, 3 + 1001) ∧
    captureJPEG (⟨fun _ => false, 5, fun _ => 0⟩ : Sensor) 3 1002
        (⟨true, [], 0⟩ : CamState) = (false, (⟨true, [], 0⟩ : CamState)) ∧
    1000 ≤ (3 + 1001) - 3 ∧ (3 + 1001) - 3 ≤ 1000 + 1 :=
  captureJPEG_timeout_bounds ⟨fun _ => false, 5, fun _ => 0⟩ 3 1002 ⟨true, [], 0⟩
    (fun _ => rfl) (by decide)

/-- C6: whenever `captureJPEG` returns success, the stored frame length
satisfies `1 ≤ jpegLength ≤ MAX_JPEG_SIZE`; and a FIFO length register reading
of 0 or above the bound makes `captureJPEG` return failure. -/
theorem captureJPEG_length_invariant (env : Sensor) (startTime fuel : Nat) (s : CamState) :
    (∀ s2, captureJPEG env startTime fuel s = (true, s2) →
      1 ≤ s2.jpegLength ∧ s2.jpegLength ≤ MAX_JPEG_SIZE) ∧
    ((env.fifoLength = 0 ∨ env.fifoLength > MAX_JPEG_SIZE) →
      (captureJPEG env startTime fuel s).fst = false) := by
  unfold captureJPEG
  by_cases hav : s.isAvailable = false
  · rw [if_pos hav]
    exact ⟨fun s2 h => by simp at h, fun _ => rfl⟩
  · rw [if_neg hav]
    cases hwait : captureWait env.capDone startTime fuel startTime with
    | mk done texit =>
      cases done with
      | false => exact ⟨fun s2 h => by simp at h, fun _ => rfl⟩
      | true =>
        dsimp only
        by_cases hlen : env.fifoLength = 0 ∨ env.fifoLength > MAX_JPEG_SIZE
        · rw [if_pos hlen]
          exact ⟨fun s2 h => by simp at h, fun _ => rfl⟩
        · rw [if_neg hlen]
          push_neg at hlen
          refine ⟨fun s2 h => ?_, fun hcontra => absurd hcontra (by push_neg; exact hlen)⟩
          have h2 := (Prod.ext_iff.mp h).2
          simp only [] at h2
          rw [← h2]
          exact ⟨Nat.one_le_iff_ne_zero.mpr hlen.1, hlen.2⟩

/-- Witness for C6: a sensor that completes immediately with a 1-byte frame
satisfies the invariant, and a sensor whose length register reads 0 fails. -/
theorem captureJPEG_length_invariant_witness :
    (1 ≤ (⟨true, [9], 1⟩ : CamState).jpegLength ∧
      (⟨true, [9], 1⟩ : CamState).jpegLength ≤ MAX_JPEG_SIZE) ∧
    (captureJPEG (⟨fun _ => true, 0, fun _ => 9⟩ : Sensor) 0 1
        (⟨true, [], 0⟩ : CamState)).fst = false :=
  ⟨(captureJPEG_length_invariant ⟨fun _ => true, 1, fun _ => 9⟩ 0 1 ⟨true, [], 0⟩).1
      ⟨true, [9], 1⟩ (by decide),
   (captureJPEG_length_invariant ⟨fun _ => true, 0, fun _ => 9⟩ 0 1 ⟨true, [], 0⟩).2
      (Or.inl rfl)⟩

/-- C9: when `captureJPEG` fails because the wait loop timed out, it returns
failure before reading any payload: the returned state is the input state, so
the compressed-frame buffer contents and the stored frame length are both
unchanged. -/
theorem captureJPEG_timeout_preserves_state (env : Sensor) (startTime fuel : Nat)
    (s : CamState)
    (htimeout : (captureWait env.capDone startTime fuel startTime).fst = false) :
    captureJPEG env startTime fuel s = (false, s) ∧
    (captureJPEG env startTime fuel s).snd.jpegBuffer = s.jpegBuffer ∧
    (captureJPEG env startTime fuel s).snd.jpegLength = s.jpegLength := by
  have hmain : captureJPEG env startTime fuel s = (false, s) := by
    unfold captureJPEG
    by_cases hav : s.isAvailable = false
    · rw [if_pos hav]
    · rw [if_neg hav]
      cases hwait : captureWait env.capDone startTime fuel startTime with
      | mk done texit =>
        cases done with
        | false => rfl
        | true => rw [hwait] at htimeout; simp at htimeout
  exact ⟨hmain, by rw [hmain], by rw [hmain]⟩

/-- Witness for C9: a never-completing sensor polled with small fuel leaves the
pre-call buffer `[1, 2]` and length 7 untouched. -/
theorem captureJPEG_timeout_preserves_state_witness :
    captureJPEG (⟨fun _ => false, 5, fun _ => 0⟩ : Sensor) 0 2
        (⟨true, [1, 2], 7⟩ : CamState) = (false, (⟨true, [1, 2], 7⟩ : CamState)) ∧
    (captureJPEG (⟨fun _ => false, 5, fun _ => 0⟩ : Sensor) 0 2
        (⟨true, [1, 2], 7⟩ : CamState)).snd.jpegBuffer = [1, 2] ∧
    (captureJPEG (⟨fun _ => false, 5, fun _ => 0⟩ : Sensor) 0 2
        (⟨true, [1, 2], 7⟩ : CamState)).snd.jpegLength = 7 :=
  captureJPEG_timeout_preserves_state ⟨fun _ => false, 5, fun _ => 0⟩ 0 2 ⟨true, [1, 2], 7⟩
    (by decide)

/-! ## UIManager request flags (src/stitch_cam_v4/ui_manager.h)

`captureButtonISR` only sets the volatile flag `captureRequested = true`.
`checkCaptureButton` is the request loop's test-and-clear reader: if the flag
is set and the press is outside the debounce window it clears the flag, records
the press time and returns `true`; if the flag is set but inside the debounce
window it clears the flag anyway and returns `false`; otherwise it returns
`false`.  `checkModeButton` is identical but also toggles the capture mode on
an accepted press.  The debounce constant `UIConfig::BUTTON_DEBOUNCE_MS` is
kept as a parameter `D`; `millis()` is the parameter `now` (times are
monotonic Nat milliseconds, so the source's unsigned `now - lastPress`
is Nat subtraction). -/

/-- State read and written by `captureButtonISR` / `checkCaptureButton`:
the volatile request flag and the function-static `lastPress` time. -/
structure CaptureUIState where
  captureRequested : Bool
  lastPress : Nat
deriving DecidableEq

/-- `CaptureMode` (src/stitch_cam_v2/config.h): INSTANT or COUNTDOWN. -/
inductive CaptureMode where
  | INSTANT
  | COUNTDOWN
deriving DecidableEq

/-- `UIManager::toggleMode()`: flips between the two capture modes. -/
def toggleMode : CaptureMode → CaptureMode
  | CaptureMode.INSTANT => CaptureMode.COUNTDOWN
  | CaptureMode.COUNTDOWN => CaptureMode.INSTANT

/-- State read and written by `modeButtonISR` / `checkModeButton`. -/
structure ModeUIState where
  modeToggleRequested : Bool
  lastPress : Nat
  currentMode : CaptureMode
deriving DecidableEq

/-- `UIManager::captureButtonISR()`: `captureRequested = true;`. -/
def captureButtonISR (s : CaptureUIState) : CaptureUIState :=
  { s with captureRequested := true }

/-- `UIManager::checkCaptureButton()` at time `now`, with debounce window `D`. -/
def checkCaptureButton (D now : Nat) (s : CaptureUIState) : Bool × CaptureUIState :=
  if s.captureRequested then
    if now - s.lastPress > D then
      (true, { captureRequested := false, lastPress := now })
    else
      (false, { s with captureRequested := false })
  else (false, s)

/-- `UIManager::modeButtonISR()`: `modeToggleRequested = true;`. -/
def modeButtonISR (s : ModeUIState) : ModeUIState :=
  { s with modeToggleRequested := true }

/-- `UIManager::checkModeButton()` at time `now`, with debounce window `D`;
an accepted press also runs `toggleMode()`. -/
def checkModeButton (D now : Nat) (s : ModeUIState) : Bool × ModeUIState :=
  if s.modeToggleRequested then
    if now - s.lastPress > D then
      (true, { modeToggleRequested := false, lastPress := now,
               currentMode := toggleMode s.currentMode })
    else
      (false, { s with modeToggleRequested := false })
  else (false, s)

/-- C8: setting the capture-request flag is idempotent (two ISR invocations
leave the same state as one), and the reader's check is test-and-clear: after
two `captureButtonISR` invocations before the request loop's next check, that
check (outside the debounce window) triggers exactly one capture action and
leaves the flag false, so the immediately following check triggers none. -/
theorem captureRequest_coalesced (D now now2 : Nat) (s : CaptureUIState)
    (hdeb : now - s.lastPress > D) :
    captureButtonISR (captureButtonISR s) = captureButtonISR s ∧
    (checkCaptureButton D now (captureButtonISR (captureButtonISR s))).fst = true ∧
    ((checkCaptureButton D now (captureButtonISR (captureButtonISR s))).snd).captureRequested
        = false ∧
    (checkCaptureButton D now2
        ((checkCaptureButton D now (captureButtonISR (captureButtonISR s))).snd)).fst
        = false := by
  have hisr : captureButtonISR (captureButtonISR s) = captureButtonISR s := rfl
  have hflag : (captureButtonISR s).captureRequested = true := rfl
  have hlast : (captureButtonISR s).lastPress = s.lastPress := rfl
  refine ⟨hisr, ?_, ?_, ?_⟩ <;>
    simp [checkCaptureButton, captureButtonISR, hdeb]

/-- Witness for C8: two presses at time 0 coalesce into the single accepted
check at time 300 with a 200 ms debounce window. -/
theorem captureRequest_coalesced_witness :
    captureButtonISR (captureButtonISR ⟨false, 0⟩) = captureButtonISR ⟨false, 0⟩ ∧
    (checkCaptureButton 200 300 (captureButtonISR (captureButtonISR ⟨false, 0⟩))).fst
        = true ∧
    ((checkCaptureButton 200 300
        (captureButtonISR (captureButtonISR ⟨false, 0⟩))).snd).captureRequested = false ∧
    (checkCaptureButton 200 301
        ((checkCaptureButton 200 300
          (captureButtonISR (captureButtonISR ⟨false, 0⟩))).snd)).fst = false :=
  captureRequest_coalesced 200 300 301 ⟨false, 0⟩ (by decide)

/-- C10: if the capture-request flag is set but the check occurs within the
debounce window of the last accepted press, `checkCaptureButton` returns
`false` and still clears the flag (leaving `lastPress` unchanged) — the
request is silently discarded, not deferred; `checkModeButton` behaves the
same way (and does not toggle the mode). -/
theorem debounced_request_discarded (D now : Nat) (s : CaptureUIState) (m : ModeUIState)
    (hs : s.captureRequested = true) (hdeb : ¬ (now - s.lastPress > D))
    (hm : m.modeToggleRequested = true) (hdebm : ¬ (now - m.lastPress > D)) :
    checkCaptureButton D now s = (false, { s with captureRequested := false }) ∧
    checkModeButton D now m = (false, { m with modeToggleRequested := false }) := by
  constructor
  · unfold checkCaptureButton
    rw [if_pos hs, if_neg hdeb]
  · unfold checkModeButton
    rw [if_pos hm, if_neg hdebm]

/-- Witness for C10: flags set at time 50, checks at time 100 with a 200 ms
debounce window are discarded with the flags cleared. -/
theorem debounced_request_discarded_witness :
    checkCaptureButton 200 100 ⟨true, 50⟩ = (false, ⟨false, 50⟩) ∧
    checkModeButton 200 100 ⟨true, 50, CaptureMode.INSTANT⟩
        = (false, ⟨false, 50, CaptureMode.INSTANT⟩) :=
  debounced_request_discarded 200 100 ⟨true, 50⟩ ⟨true, 50, CaptureMode.INSTANT⟩
    rfl (by decide) rfl (by decide)
